import Mathlib

/-!
# Verification of the amana-marketing aggregation core

A shallow embedding, in Lean 4, of the aggregation layer of the
amana-marketing dashboard:

* `aggregateCampaignMetrics`, `buildOrderedAgeGroups`,
  `buildGenderAgeTableData` from `src/app/demographic-view/page.tsx`;
* `aggregateRegionalPerformance`, `aggregateWeeklyPerformance`,
  `aggregateDevicePerformance`, `enrichMetrics` from the device, region and
  weekly view modules;
* the control flow of `fetchMarketingData`.

JavaScript numbers are modelled by `JsNum`: an exact rational (`num`), the two
infinities, or `nan`.  Finite doubles are idealised as exact rationals (the
spec states its partition invariant "within floating-point tolerance"; the
idealisation makes it exact).  The special values follow IEEE/JS semantics for
`+`, `*`, `/`, `<`, `<=`, `Number.isFinite` and `Math.round`, with two
identifications that no statement below depends on: `-0` is identified with
`0`, and `Math.round` of a rational uses the same floor-of-x-plus-half rule as
JS uses for doubles.

JavaScript `Map`s are modelled as association lists in insertion order:
`mapSet` on an existing key updates the value in place (keeping the key's
position), otherwise appends, exactly like `Map.prototype.set`; `mapGet?` is
`Map.prototype.get`.  Array iteration over `Map` keys/values is `List.map`.
`Array.prototype.sort` (a stable sort in modern JS) is modelled by
`List.insertionSort`, which is stable.
-/

/-- A JavaScript number: an exact rational, `Infinity`, `-Infinity`, or `NaN`. -/
inductive JsNum where
  | num (q : ℚ)
  | posInf
  | negInf
  | nan
deriving DecidableEq

namespace JsNum

/-- JS `Number.isFinite`. -/
def isFinite : JsNum → Bool
  | num _ => true
  | _ => false

/-- JS `+` on numbers. -/
def add : JsNum → JsNum → JsNum
  | nan, _ => nan
  | _, nan => nan
  | num a, num b => num (a + b)
  | num _, posInf => posInf
  | posInf, num _ => posInf
  | num _, negInf => negInf
  | negInf, num _ => negInf
  | posInf, posInf => posInf
  | negInf, negInf => negInf
  | posInf, negInf => nan
  | negInf, posInf => nan

/-- JS `*` on numbers (`0 * Infinity` is `NaN`). -/
def mul : JsNum → JsNum → JsNum
  | nan, _ => nan
  | _, nan => nan
  | num a, num b => num (a * b)
  | num a, posInf => if a = 0 then nan else if 0 < a then posInf else negInf
  | posInf, num a => if a = 0 then nan else if 0 < a then posInf else negInf
  | num a, negInf => if a = 0 then nan else if 0 < a then negInf else posInf
  | negInf, num a => if a = 0 then nan else if 0 < a then negInf else posInf
  | posInf, posInf => posInf
  | posInf, negInf => negInf
  | negInf, posInf => negInf
  | negInf, negInf => posInf

/-- JS `/` on numbers (`0/0` is `NaN`, `a/0` is a signed infinity, `a/∞` is `0`;
the sign of a zero result is identified with `0`). -/
def div : JsNum → JsNum → JsNum
  | nan, _ => nan
  | _, nan => nan
  | num a, num b =>
      if b = 0 then (if a = 0 then nan else if 0 < a then posInf else negInf)
      else num (a / b)
  | num _, posInf => num 0
  | num _, negInf => num 0
  | posInf, num b => if 0 ≤ b then posInf else negInf
  | negInf, num b => if 0 ≤ b then negInf else posInf
  | posInf, posInf => nan
  | posInf, negInf => nan
  | negInf, posInf => nan
  | negInf, negInf => nan

/-- JS `<` on numbers (any comparison with `NaN` is `false`). -/
def ltB : JsNum → JsNum → Bool
  | nan, _ => false
  | _, nan => false
  | num a, num b => decide (a < b)
  | num _, posInf => true
  | posInf, num _ => false
  | num _, negInf => false
  | negInf, num _ => true
  | posInf, posInf => false
  | negInf, negInf => false
  | negInf, posInf => true
  | posInf, negInf => false

/-- JS `<=` on numbers (any comparison with `NaN` is `false`). -/
def leB : JsNum → JsNum → Bool
  | nan, _ => false
  | _, nan => false
  | num a, num b => decide (a ≤ b)
  | num _, posInf => true
  | posInf, num _ => false
  | num _, negInf => false
  | negInf, num _ => true
  | posInf, posInf => true
  | negInf, negInf => true
  | negInf, posInf => true
  | posInf, negInf => false

/-- JS `Math.round`: round half toward positive infinity; fixed on non-finite
values. -/
def round : JsNum → JsNum
  | num a => num ((⌊a + 1/2⌋ : ℤ) : ℚ)
  | x => x

theorem num_add_num (a b : ℚ) : (num a).add (num b) = num (a + b) := rfl

theorem add_num_zero : ∀ x : JsNum, x.add (num 0) = x
  | num a => by simp [add]
  | posInf => rfl
  | negInf => rfl
  | nan => rfl

theorem num_zero_add : ∀ x : JsNum, (num 0).add x = x
  | num a => by simp [add]
  | posInf => rfl
  | negInf => rfl
  | nan => rfl

end JsNum

/-- JS `String.prototype.toLowerCase`, modelled character-wise (`Char.toLower`
is the ASCII lowercase map, which agrees with `toLowerCase` on every gender,
device and region label in play). -/
def jsToLower (s : String) : String := ⟨s.data.map Char.toLower⟩

/-- JS `String.prototype.trim`: strip leading and trailing whitespace. -/
def jsTrim (s : String) : String :=
  ⟨((s.data.dropWhile (·.isWhitespace)).reverse.dropWhile
      (·.isWhitespace)).reverse⟩

/-- The code-unit lexicographic comparison that the default
`Array.prototype.sort` comparator performs on strings (UTF-16 code units and
codepoints agree on the labels in play), read as the sort's
"a comes no later than b" relation. -/
def charListLeB : List Char → List Char → Bool
  | [], _ => true
  | _ :: _, [] => false
  | a :: as, b :: bs =>
      if a.toNat < b.toNat then true
      else if b.toNat < a.toNat then false
      else charListLeB as bs

/-- The default-comparator string order on `String`. -/
def strLe (a b : String) : Prop := charListLeB a.data b.data = true

instance : DecidableRel strLe := fun _ _ => instDecidableEqBool _ _

theorem charListLeB_total : ∀ as bs : List Char,
    charListLeB as bs = true ∨ charListLeB bs as = true
  | [], _ => Or.inl rfl
  | _ :: _, [] => Or.inr rfl
  | a :: as, b :: bs => by
      rcases Nat.lt_trichotomy a.toNat b.toNat with h | h | h
      · left; simp [charListLeB, h]
      · rcases charListLeB_total as bs with ih | ih
        · left; simp [charListLeB, h, ih]
        · right; simp [charListLeB, h.symm, ih]
      · right; simp [charListLeB, h]

theorem charListLeB_trans : ∀ as bs cs : List Char,
    charListLeB as bs = true → charListLeB bs cs = true →
    charListLeB as cs = true
  | [], _, _, _, _ => rfl
  | _ :: _, [], _, h1, _ => by simp [charListLeB] at h1
  | _ :: _, _ :: _, [], _, h2 => by simp [charListLeB] at h2
  | a :: as, b :: bs, c :: cs, h1, h2 => by
      rcases Nat.lt_trichotomy a.toNat b.toNat with hab | hab | hab
      · rcases Nat.lt_trichotomy b.toNat c.toNat with hbc | hbc | hbc
        · simp [charListLeB, Nat.lt_trans hab hbc]
        · have hac : a.toNat < c.toNat := lt_of_lt_of_eq hab hbc
          simp [charListLeB, hac]
        · simp [charListLeB, hbc, Nat.lt_asymm hbc] at h2
      · rcases Nat.lt_trichotomy b.toNat c.toNat with hbc | hbc | hbc
        · have hac : a.toNat < c.toNat := lt_of_eq_of_lt hab hbc
          simp [charListLeB, hac]
        · have hac : a.toNat = c.toNat := hab.trans hbc
          simp only [charListLeB, hab, Nat.lt_irrefl, if_false] at h1
          simp only [charListLeB, hbc, Nat.lt_irrefl, if_false] at h2
          simp only [charListLeB, hac, Nat.lt_irrefl, if_false]
          exact charListLeB_trans as bs cs h1 h2
        · simp [charListLeB, hbc, Nat.lt_asymm hbc] at h2
      · simp [charListLeB, hab, Nat.lt_asymm hab] at h1

instance : IsTotal String strLe := ⟨fun a b => charListLeB_total a.data b.data⟩

instance : IsTrans String strLe :=
  ⟨fun a b c => charListLeB_trans a.data b.data c.data⟩

/-! ## Insertion-ordered maps (the `Map` objects of the source) -/

/-- JS `Map.prototype.get`, over the insertion-order association-list model. -/
def mapGet? {α : Type} (m : List (String × α)) (k : String) : Option α :=
  match m with
  | [] => none
  | (k', v) :: rest => if k' = k then some v else mapGet? rest k

/-- JS `Map.prototype.set`: update in place if the key is present (keeping its
position in iteration order), otherwise append. -/
def mapSet {α : Type} (m : List (String × α)) (k : String) (v : α) :
    List (String × α) :=
  match m with
  | [] => [(k, v)]
  | (k', v') :: rest =>
      if k' = k then (k, v) :: rest else (k', v') :: mapSet rest k v

theorem mapGet?_mapSet_self {α : Type} (m : List (String × α)) (k : String)
    (v : α) : mapGet? (mapSet m k v) k = some v := by
  induction m with
  | nil => simp [mapGet?, mapSet]
  | cons hd tl ih =>
      obtain ⟨k', v'⟩ := hd
      by_cases h : k' = k
      · simp [mapGet?, mapSet, h]
      · simp [mapGet?, mapSet, h, ih]

theorem mapGet?_mapSet_ne {α : Type} (m : List (String × α)) {k k' : String}
    (v : α) (h : k' ≠ k) : mapGet? (mapSet m k v) k' = mapGet? m k' := by
  induction m with
  | nil => simp [mapGet?, mapSet, Ne.symm h]
  | cons hd tl ih =>
      obtain ⟨k'', v''⟩ := hd
      by_cases hk : k'' = k
      · subst hk
        simp [mapGet?, mapSet, Ne.symm h]
      · simp [mapGet?, mapSet, hk, ih]

/-! ## Data model (`Campaign` and its breakdown records)

Transcribed from the `Campaign` / `DemographicBreakdown` types declared in
`demographic-view/page.tsx` and from the fields the device/region/weekly view
modules read off `Campaign` (the shared `src/types/marketing` declaration file
itself is presentational plumbing; the field set below is exactly what the
aggregators consume, with every numeric field optional as in the source). -/

structure SegmentPerformance where
  impressions : Option JsNum
  clicks : Option JsNum
  conversions : Option JsNum
deriving DecidableEq

structure DemographicBreakdown where
  age_group : Option String
  gender : Option String
  percentage_of_audience : Option JsNum
  performance : Option SegmentPerformance
deriving DecidableEq

structure DeviceStat where
  device : Option String
  impressions : Option JsNum
  clicks : Option JsNum
  conversions : Option JsNum
  spend : Option JsNum
  revenue : Option JsNum
deriving DecidableEq

structure RegionStat where
  region : String
  country : String
  spend : Option JsNum
  revenue : Option JsNum
deriving DecidableEq

structure WeeklyStat where
  week_start : String
  week_end : String
  spend : Option JsNum
  revenue : Option JsNum
deriving DecidableEq

structure Campaign where
  spend : Option JsNum
  revenue : Option JsNum
  demographic_breakdown : Option (List DemographicBreakdown)
  device_performance : Option (List DeviceStat)
  regional_performance : Option (List RegionStat)
  weekly_performance : Option (List WeeklyStat)
deriving DecidableEq

/-! ## Demographic view: `aggregateCampaignMetrics` -/

structure AgeMetrics where
  spend : JsNum
  revenue : JsNum
  impressions : JsNum
  clicks : JsNum
  conversions : JsNum
deriving DecidableEq

/-- The source's `createEmptyAgeMetrics`. -/
def createEmptyAgeMetrics : AgeMetrics :=
  ⟨.num 0, .num 0, .num 0, .num 0, .num 0⟩

structure GenderMetrics where
  clicks : JsNum
  spend : JsNum
  revenue : JsNum
deriving DecidableEq

/-- The accumulator of `aggregateCampaignMetrics`: the `genderTotals` record
(flattened into `maleTotals`/`femaleTotals`), the `ageTotals` map, and the
`genderAgeTotals` record of maps (flattened likewise). -/
structure AggState where
  maleTotals : GenderMetrics
  femaleTotals : GenderMetrics
  ageTotals : List (String × AgeMetrics)
  maleAgeTotals : List (String × AgeMetrics)
  femaleAgeTotals : List (String × AgeMetrics)
deriving DecidableEq

def initialAggState : AggState :=
  ⟨⟨.num 0, .num 0, .num 0⟩, ⟨.num 0, .num 0, .num 0⟩, [], [], []⟩

/-- The source's `breakdowns.reduce((sum, b) => sum + (b.percentage_of_audience ?? 0), 0)`. -/
def totalPercentage (breakdowns : List DemographicBreakdown) : JsNum :=
  breakdowns.foldl
    (fun sum breakdown => sum.add (breakdown.percentage_of_audience.getD (.num 0)))
    (.num 0)

/-- The per-segment share expression of the source:
`segment.percentage_of_audience !== undefined && totalPercentage > 0
  ? segment.percentage_of_audience / totalPercentage
  : 1 / breakdowns.length`
(the source hoists `totalPercentage` out of the segment loop; it is a pure
expression, recomputed here). -/
def share (breakdowns : List DemographicBreakdown)
    (segment : DemographicBreakdown) : JsNum :=
  match segment.percentage_of_audience with
  | some p =>
      if (JsNum.num 0).ltB (totalPercentage breakdowns) then
        p.div (totalPercentage breakdowns)
      else
        (JsNum.num 1).div (JsNum.num ((breakdowns.length : ℚ)))
  | none => (JsNum.num 1).div (JsNum.num ((breakdowns.length : ℚ)))

/-- The source's `segment.performance?.impressions ?? 0` and its two siblings. -/
def perfField (segment : DemographicBreakdown)
    (f : SegmentPerformance → Option JsNum) : JsNum :=
  (segment.performance.bind f).getD (.num 0)

/-- The five-field metrics object written into an age-keyed map for one
segment: spend/revenue via the share allocation, the performance counts
verbatim (the source spells the identical object literal at each of its three
map writes). -/
def ageUpdate (spend revenue : JsNum) (breakdowns : List DemographicBreakdown)
    (segment : DemographicBreakdown) (cur : AgeMetrics) : AgeMetrics :=
  ⟨cur.spend.add (spend.mul (share breakdowns segment)),
   cur.revenue.add (revenue.mul (share breakdowns segment)),
   cur.impressions.add (perfField segment (·.impressions)),
   cur.clicks.add (perfField segment (·.clicks)),
   cur.conversions.add (perfField segment (·.conversions))⟩

/-- The body of the `breakdowns.forEach((segment) => ...)` loop of
`aggregateCampaignMetrics`.  The source mutates `ageTotals` first and then,
inside the `genderKey === 'male' || genderKey === 'female'` guard, mutates
`genderTotals[genderKey]` and `genderAgeTotals[genderKey]`; the three branches
below perform the identical updates. -/
def processSegment (spend revenue : JsNum)
    (breakdowns : List DemographicBreakdown) (st : AggState)
    (segment : DemographicBreakdown) : AggState :=
  let clicks := perfField segment (·.clicks)
  let spendShare := spend.mul (share breakdowns segment)
  let revenueShare := revenue.mul (share breakdowns segment)
  let genderKey := jsToLower (segment.gender.getD "")
  let ageGroup := segment.age_group.getD "Unknown"
  let newAgeTotals := mapSet st.ageTotals ageGroup
    (ageUpdate spend revenue breakdowns segment
      ((mapGet? st.ageTotals ageGroup).getD createEmptyAgeMetrics))
  if genderKey = "male" then
    { st with
      ageTotals := newAgeTotals,
      maleTotals := ⟨st.maleTotals.clicks.add clicks,
                     st.maleTotals.spend.add spendShare,
                     st.maleTotals.revenue.add revenueShare⟩,
      maleAgeTotals := mapSet st.maleAgeTotals ageGroup
        (ageUpdate spend revenue breakdowns segment
          ((mapGet? st.maleAgeTotals ageGroup).getD createEmptyAgeMetrics)) }
  else if genderKey = "female" then
    { st with
      ageTotals := newAgeTotals,
      femaleTotals := ⟨st.femaleTotals.clicks.add clicks,
                       st.femaleTotals.spend.add spendShare,
                       st.femaleTotals.revenue.add revenueShare⟩,
      femaleAgeTotals := mapSet st.femaleAgeTotals ageGroup
        (ageUpdate spend revenue breakdowns segment
          ((mapGet? st.femaleAgeTotals ageGroup).getD createEmptyAgeMetrics)) }
  else
    { st with ageTotals := newAgeTotals }

/-- The body of the `campaigns.forEach((campaign) => ...)` loop: campaigns
with an absent or empty `demographic_breakdown` are skipped (`return`). -/
def processCampaign (st : AggState) (campaign : Campaign) : AggState :=
  let breakdowns := campaign.demographic_breakdown.getD []
  if breakdowns.isEmpty then st
  else
    breakdowns.foldl
      (processSegment (campaign.spend.getD (.num 0))
        (campaign.revenue.getD (.num 0)) breakdowns)
      st

/-- The source's `aggregateCampaignMetrics` of `demographic-view/page.tsx`. -/
def aggregateCampaignMetrics (campaigns : List Campaign) : AggState :=
  campaigns.foldl processCampaign initialAggState

/-- The source's `AGE_GROUP_ORDER`. -/
def AGE_GROUP_ORDER : List String := ["18-24", "25-34", "35-44", "45-54", "55+"]

/-- The source's `buildOrderedAgeGroups`: the canonical order followed by the remaining
observed age-group keys, sorted (JS default string sort). -/
def buildOrderedAgeGroups (ageTotals : List (String × AgeMetrics)) :
    List String :=
  let additionalAgeGroups :=
    ((ageTotals.map Prod.fst).filter
      (fun ageGroup => !AGE_GROUP_ORDER.contains ageGroup)).insertionSort strLe
  AGE_GROUP_ORDER ++ additionalAgeGroups

structure AgeTableRow where
  ageGroup : String
  impressions : JsNum
  clicks : JsNum
  conversions : JsNum
  ctr : JsNum
  conversionRate : JsNum
deriving DecidableEq

/-- The per-age-group body of `buildGenderAgeTableData`'s loop, given that the
map lookup succeeded: skip when there is no activity, otherwise emit the row
with its CTR / conversion-rate and defensively rounded counts. -/
def buildRow (ageGroup : String) (totals : AgeMetrics) : Option AgeTableRow :=
  let hasActivity := (JsNum.num 0).ltB totals.impressions
    || (JsNum.num 0).ltB totals.clicks
    || (JsNum.num 0).ltB totals.conversions
  if hasActivity then
    let ctr :=
      if (JsNum.num 0).ltB totals.impressions then
        (totals.clicks.div totals.impressions).mul (.num 100)
      else .num 0
    let conversionRate :=
      if (JsNum.num 0).ltB totals.clicks then
        (totals.conversions.div totals.clicks).mul (.num 100)
      else .num 0
    some ⟨ageGroup, totals.impressions.round, totals.clicks.round,
          totals.conversions.round, ctr, conversionRate⟩
  else none

/-- The source's `buildGenderAgeTableData`. -/
def buildGenderAgeTableData (genderAgeTotals : List (String × AgeMetrics))
    (orderedAgeGroups : List String) : List AgeTableRow :=
  let orderedWithExtras := orderedAgeGroups ++
    (genderAgeTotals.map Prod.fst).filter
      (fun ageGroup => !orderedAgeGroups.contains ageGroup)
  orderedWithExtras.filterMap
    (fun ageGroup => (mapGet? genderAgeTotals ageGroup).bind (buildRow ageGroup))

/-! ## Device view: `aggregateDevicePerformance` and `enrichMetrics` -/

structure DeviceAggregate where
  device : String
  impressions : JsNum
  clicks : JsNum
  conversions : JsNum
  spend : JsNum
  revenue : JsNum
deriving DecidableEq

/-- The source's `DEVICE_LABELS`, defined on the two recognised keys. -/
def deviceLabel : String → String
  | "mobile" => "Mobile"
  | _ => "Desktop"

/-- The all-zero default aggregate built inline by the source for an
unseen device key. -/
def emptyDeviceAggregate (key : String) : DeviceAggregate :=
  ⟨deviceLabel key, .num 0, .num 0, .num 0, .num 0, .num 0⟩

/-- The `Number.isFinite(v) ? v : 0` guard applied to `Number(x ?? 0)`; this
contribution pattern is shared verbatim by the device, region and weekly
aggregators of the source. -/
def finiteOrZero (x : Option JsNum) : JsNum :=
  let v := x.getD (.num 0)
  if v.isFinite then v else .num 0

/-- The body of the `devicePerformance.forEach((deviceStat) => ...)` loop:
labels other than (case-insensitive) `mobile` / `desktop` are skipped. -/
def processDeviceStat (totals : List (String × DeviceAggregate))
    (deviceStat : DeviceStat) : List (String × DeviceAggregate) :=
  match deviceStat.device.map jsToLower with
  | none => totals
  | some key =>
      if key = "mobile" ∨ key = "desktop" then
        let existing := (mapGet? totals key).getD (emptyDeviceAggregate key)
        mapSet totals key
          { existing with
            impressions := existing.impressions.add (finiteOrZero deviceStat.impressions),
            clicks := existing.clicks.add (finiteOrZero deviceStat.clicks),
            conversions := existing.conversions.add (finiteOrZero deviceStat.conversions),
            spend := existing.spend.add (finiteOrZero deviceStat.spend),
            revenue := existing.revenue.add (finiteOrZero deviceStat.revenue) }
      else totals

/-- The source's `aggregateDevicePerformance` of the device view module. -/
def aggregateDevicePerformance (campaigns : List Campaign) :
    List (String × DeviceAggregate) :=
  campaigns.foldl
    (fun totals campaign =>
      (campaign.device_performance.getD []).foldl processDeviceStat totals)
    []

structure DeviceMetrics where
  device : String
  impressions : JsNum
  clicks : JsNum
  conversions : JsNum
  spend : JsNum
  revenue : JsNum
  ctr : JsNum
  conversionRate : JsNum
  roas : Option JsNum
  trafficShare : JsNum
deriving DecidableEq

/-- The per-device body of `enrichMetrics`' reduce over `DEVICE_ORDER`. -/
def enrichOne (aggregate : DeviceAggregate) (totalClicks : JsNum) :
    DeviceMetrics :=
  let ctr :=
    if (JsNum.num 0).ltB aggregate.impressions then
      (aggregate.clicks.div aggregate.impressions).mul (.num 100)
    else .num 0
  let conversionRate :=
    if (JsNum.num 0).ltB aggregate.clicks then
      (aggregate.conversions.div aggregate.clicks).mul (.num 100)
    else .num 0
  let roas :=
    if (JsNum.num 0).ltB aggregate.spend then
      some (aggregate.revenue.div aggregate.spend)
    else none
  let trafficShare :=
    if (JsNum.num 0).ltB totalClicks then
      (aggregate.clicks.div totalClicks).mul (.num 100)
    else .num 0
  ⟨aggregate.device, aggregate.impressions, aggregate.clicks,
   aggregate.conversions, aggregate.spend, aggregate.revenue,
   ctr, conversionRate, roas, trafficShare⟩

/-- The `Record<DeviceKey, DeviceMetrics>` built by `enrichMetrics`: both keys
are always present. -/
structure DeviceMetricsRecord where
  mobile : DeviceMetrics
  desktop : DeviceMetrics
deriving DecidableEq

/-- The source's `enrichMetrics` of the device view module. -/
def enrichMetrics (totals : List (String × DeviceAggregate)) :
    DeviceMetricsRecord :=
  let totalClicks :=
    (totals.map Prod.snd).foldl (fun sum item => sum.add item.clicks) (.num 0)
  { mobile :=
      enrichOne ((mapGet? totals "mobile").getD (emptyDeviceAggregate "mobile"))
        totalClicks,
    desktop :=
      enrichOne ((mapGet? totals "desktop").getD (emptyDeviceAggregate "desktop"))
        totalClicks }

/-! ## Region view: `aggregateRegionalPerformance` -/

/-- The source's `REGION_COORDINATES` of the region view module, verbatim. -/
def REGION_COORDINATES : List (String × (ℚ × ℚ)) :=
  [("abu dhabi", ((24.4539 : ℚ), (54.3773 : ℚ))),
   ("al ain", ((24.1302 : ℚ), (55.8023 : ℚ))),
   ("al khobar", ((26.2172 : ℚ), (50.1971 : ℚ))),
   ("dammam", ((26.4207 : ℚ), (50.088 : ℚ))),
   ("doha", ((25.2854 : ℚ), (51.531 : ℚ))),
   ("dubai", ((25.2048 : ℚ), (55.2708 : ℚ))),
   ("fujairah", ((25.1288 : ℚ), (56.3265 : ℚ))),
   ("jeddah", ((21.4858 : ℚ), (39.1925 : ℚ))),
   ("kuwait city", ((29.3786 : ℚ), (47.9903 : ℚ))),
   ("manama", ((26.2235 : ℚ), (50.5876 : ℚ))),
   ("muscat", ((23.588 : ℚ), (58.3829 : ℚ))),
   ("ras al khaimah", ((25.8007 : ℚ), (55.9762 : ℚ))),
   ("riyadh", ((24.7136 : ℚ), (46.6753 : ℚ))),
   ("sharjah", ((25.3463 : ℚ), (55.4211 : ℚ))),
   ("shuwaikh", ((29.3499 : ℚ), (47.9647 : ℚ))),
   ("ajman", ((25.4052 : ℚ), (55.5136 : ℚ))),
   ("bahrain", ((26.0667 : ℚ), (50.5577 : ℚ)))]

/-- The source's `normalizeKey`: trim then lowercase. -/
def normalizeKey (value : String) : String := jsToLower (jsTrim value)

/-- The source's `resolveCoordinates`: `REGION_COORDINATES[key] ?? null`. -/
def resolveCoordinates (region : String) : Option (ℚ × ℚ) :=
  mapGet? REGION_COORDINATES (normalizeKey region)

structure RegionAggregate where
  region : String
  country : String
  latitude : ℚ
  longitude : ℚ
  spend : JsNum
  revenue : JsNum
deriving DecidableEq

/-- The two locals of `aggregateRegionalPerformance`: the `totals` map and the
`missingRegions` set (a JS `Set` keeps insertion order and ignores
re-insertions). -/
structure RegionAccum where
  totals : List (String × RegionAggregate)
  missingRegions : List String
deriving DecidableEq

/-- The body of the `regionalPerformance.forEach((regionStat) => ...)` loop:
an entry whose region has no coordinates only records a diagnostic name and
contributes nothing to `totals`. -/
def processRegionStat (acc : RegionAccum) (regionStat : RegionStat) :
    RegionAccum :=
  match resolveCoordinates regionStat.region with
  | none =>
      { acc with missingRegions :=
          if acc.missingRegions.contains regionStat.region then
            acc.missingRegions
          else acc.missingRegions ++ [regionStat.region] }
  | some coordinates =>
      let key := normalizeKey regionStat.region
      let existing := (mapGet? acc.totals key).getD
        ⟨regionStat.region, regionStat.country, coordinates.1, coordinates.2,
         .num 0, .num 0⟩
      let updated := { existing with
        spend := existing.spend.add (finiteOrZero regionStat.spend),
        revenue := existing.revenue.add (finiteOrZero regionStat.revenue) }
      { acc with totals := mapSet acc.totals key updated }

/-- The descending-by-revenue comparator `(a, b) => b.revenue - a.revenue`
read as the sort's "a comes no later than b" relation. -/
def regionRevGe (a b : RegionAggregate) : Prop :=
  b.revenue.leB a.revenue = true

instance : DecidableRel regionRevGe := fun _ _ => instDecidableEqBool _ _

/-- The source's `aggregateRegionalPerformance` of the region view module.  The
`missingRegions` set is only handed to `console.warn`; the return value is the
revenue-sorted list of `totals` values. -/
def aggregateRegionalPerformance (campaigns : List Campaign) :
    List RegionAggregate :=
  let acc := campaigns.foldl
    (fun a campaign =>
      (campaign.regional_performance.getD []).foldl processRegionStat a)
    ⟨[], []⟩
  (acc.totals.map Prod.snd).insertionSort regionRevGe

/-! ## Weekly view: `aggregateWeeklyPerformance`

`new Date(isoDate).getTime()` is embedded for ISO `YYYY-MM-DD` strings via the
standard civil-calendar day count; a string of any other shape is modelled as
parse failure (`none`; in JS such a string may fall back to
implementation-defined parsing or yield `NaN`, making the sort comparator
return `NaN` and the sort order unspecified - the sortedness theorem below
therefore assumes every `week_start` in play is a well-formed ISO date). -/

/-- Decimal digits of a char. -/
def charDigit (c : Char) : Option Nat :=
  if c.isDigit then some (c.toNat - 48) else none

/-- Read a fixed block of decimal digits. -/
def digitsToNat (cs : List Char) : Option Nat :=
  cs.foldl (fun acc c => acc.bind fun n => (charDigit c).map fun d => n * 10 + d)
    (some 0)

/-- Days since 1970-01-01 of a civil date (proleptic Gregorian). -/
def daysFromCivil (y m d : Int) : Int :=
  let y' := if m ≤ 2 then y - 1 else y
  let era := (if 0 ≤ y' then y' else y' - 399) / 400
  let yoe := y' - era * 400
  let doy := (153 * (if 2 < m then m - 3 else m + 9) + 2) / 5 + d - 1
  let doe := yoe * 365 + yoe / 4 - yoe / 100 + doy
  era * 146097 + doe - 719468

/-- JS `new Date(s).getTime()` in milliseconds, for `YYYY-MM-DD` strings. -/
def parseIsoDateMs (s : String) : Option Int :=
  match s.data with
  | [y1, y2, y3, y4, '-', m1, m2, '-', d1, d2] => do
      let y ← digitsToNat [y1, y2, y3, y4]
      let m ← digitsToNat [m1, m2]
      let d ← digitsToNat [d1, d2]
      if 1 ≤ m ∧ m ≤ 12 ∧ 1 ≤ d ∧ d ≤ 31 then
        some (86400000 * daysFromCivil y m d)
      else none
  | _ => none

/-- The totalised sort key (see the module comment above: the fallback value
is never reached under the sortedness theorem's hypothesis). -/
def weekSortKey (s : String) : Int := (parseIsoDateMs s).getD 0

structure WeeklyAggregate where
  weekStart : String
  weekEnd : String
  spend : JsNum
  revenue : JsNum
deriving DecidableEq

/-- The bucket key `` `${week.week_start}_${week.week_end}` ``. -/
def weekKey (week : WeeklyStat) : String :=
  week.week_start ++ "_" ++ week.week_end

/-- The body of the `weeklyPerformance.forEach((week) => ...)` loop. -/
def processWeek (totals : List (String × WeeklyAggregate))
    (week : WeeklyStat) : List (String × WeeklyAggregate) :=
  let key := weekKey week
  let existing := (mapGet? totals key).getD
    ⟨week.week_start, week.week_end, .num 0, .num 0⟩
  mapSet totals key
    { existing with
      spend := existing.spend.add (finiteOrZero week.spend),
      revenue := existing.revenue.add (finiteOrZero week.revenue) }

/-- The ascending comparator
`(a, b) => new Date(a.weekStart).getTime() - new Date(b.weekStart).getTime()`
read as the sort's "a comes no later than b" relation. -/
def weekLe (a b : WeeklyAggregate) : Prop :=
  weekSortKey a.weekStart ≤ weekSortKey b.weekStart

instance : DecidableRel weekLe := fun _ _ => Int.decLe _ _

instance : IsTotal WeeklyAggregate weekLe :=
  ⟨fun a b => Int.le_total (weekSortKey a.weekStart) (weekSortKey b.weekStart)⟩

instance : IsTrans WeeklyAggregate weekLe :=
  ⟨fun _ _ _ hab hbc => Int.le_trans hab hbc⟩

/-- The source's `aggregateWeeklyPerformance` of the weekly view module. -/
def aggregateWeeklyPerformance (campaigns : List Campaign) :
    List WeeklyAggregate :=
  let totals := campaigns.foldl
    (fun t campaign => (campaign.weekly_performance.getD []).foldl processWeek t)
    []
  (totals.map Prod.snd).insertionSort weekLe

/-! ## Fetcher: `fetchMarketingData`

The async control flow of the source is embedded over an explicit outcome of
the data fetch.  `Except.error` in the result models the promise returned by
`fetchMarketingData` rejecting.  Note the source's `try` block ends with
`return response.json();` - the promise is returned without `await`, so a
rejection of that promise (a body that is not valid JSON) is not intercepted
by the `catch` clause and propagates to the caller. -/

structure MarketingData where
  campaigns : Option (List Campaign)
deriving DecidableEq

/-- The possible outcomes of `await fetch(...)`: the awaited call throws
(network failure), or yields a response with an `ok` flag whose
`response.json()` promise either fulfils with a payload or rejects. -/
inductive FetchOutcome where
  | networkError
  | response (ok : Bool) (body : Except String MarketingData)

/-- The source's `fetchMarketingData` of `demographic-view/page.tsx`:
a thrown `await fetch` and the explicit `throw` on `!response.ok` are caught
and become `null` (`Except.ok none`); a fulfilled 2xx body is returned; a
rejecting `response.json()` promise escapes the `catch` (see above). -/
def fetchMarketingData : FetchOutcome → Except String (Option MarketingData)
  | .networkError => .ok none
  | .response ok body =>
      if ok then
        match body with
        | .ok data => .ok (some data)
        | .error e => .error e
      else .ok none

/-! ## Claim C1: the partition invariant of share allocation -/

/-- The total of the per-segment contributions `amount * share` that
`aggregateCampaignMetrics` allocates across the segments of one campaign
(instantiated with the campaign's `spend` and `revenue`). -/
def allocatedTotal (amount : JsNum)
    (breakdowns : List DemographicBreakdown) : JsNum :=
  (breakdowns.map (fun segment => amount.mul (share breakdowns segment))).foldl
    JsNum.add (.num 0)

/-- The campaign's spend as allocated across its segments by the Age
Aggregator. -/
def allocatedSpend (campaign : Campaign) : JsNum :=
  allocatedTotal (campaign.spend.getD (.num 0))
    (campaign.demographic_breakdown.getD [])

/-- The campaign's revenue as allocated across its segments by the Age
Aggregator. -/
def allocatedRevenue (campaign : Campaign) : JsNum :=
  allocatedTotal (campaign.revenue.getD (.num 0))
    (campaign.demographic_breakdown.getD [])

/-- The rational value of a segment's defined finite percentage (`0` for other
shapes; only used under hypotheses ruling those out). -/
def pctQ (segment : DemographicBreakdown) : ℚ :=
  match segment.percentage_of_audience with
  | some (JsNum.num p) => p
  | _ => 0

theorem foldl_add_num {α : Type} (f : α → ℚ) :
    ∀ (l : List α) (a : ℚ),
      (l.map (fun x => JsNum.num (f x))).foldl JsNum.add (JsNum.num a)
        = JsNum.num (a + (l.map f).sum)
  | [], a => by simp
  | x :: l, a => by
      simp only [List.map_cons, List.foldl_cons, JsNum.num_add_num,
        foldl_add_num f l (a + f x), List.sum_cons]
      ring_nf

theorem totalPercentage_core :
    ∀ (l : List DemographicBreakdown) (a : ℚ),
      (∀ seg ∈ l, ∃ p : ℚ, seg.percentage_of_audience = some (JsNum.num p)) →
      l.foldl
          (fun sum breakdown =>
            sum.add (breakdown.percentage_of_audience.getD (.num 0)))
          (JsNum.num a)
        = JsNum.num (a + (l.map pctQ).sum)
  | [], a, _ => by simp
  | b :: l, a, h => by
      obtain ⟨p, hp⟩ := h b (List.mem_cons_self b l)
      have ih := totalPercentage_core l (a + p)
        (fun seg hs => h seg (List.mem_cons_of_mem b hs))
      simp only [List.foldl_cons, hp, Option.getD_some, JsNum.num_add_num, ih,
        List.map_cons, List.sum_cons, pctQ]
      ring_nf

theorem totalPercentage_eq (bs : List DemographicBreakdown)
    (h : ∀ seg ∈ bs, ∃ p : ℚ, seg.percentage_of_audience = some (JsNum.num p)) :
    totalPercentage bs = JsNum.num ((bs.map pctQ).sum) := by
  simpa [totalPercentage] using totalPercentage_core bs 0 h

theorem share_of_pct (bs : List DemographicBreakdown)
    (seg : DemographicBreakdown) (p T : ℚ)
    (hp : seg.percentage_of_audience = some (JsNum.num p))
    (hT : totalPercentage bs = JsNum.num T) (hpos : 0 < T) :
    share bs seg = JsNum.num (p / T) := by
  simp [share, hp, hT, JsNum.ltB, hpos, JsNum.div, hpos.ne']

theorem share_uniform (bs : List DemographicBreakdown)
    (seg : DemographicBreakdown)
    (hlt : (JsNum.num 0).ltB (totalPercentage bs) = false) (hne : bs ≠ []) :
    share bs seg = JsNum.num (1 / (bs.length : ℚ)) := by
  have hn : ((bs.length : ℚ)) ≠ 0 :=
    Nat.cast_ne_zero.mpr (List.length_pos.mpr hne).ne'
  cases hp : seg.percentage_of_audience with
  | none => simp [share, hp, JsNum.div, hn]
  | some p => simp [share, hp, hlt, JsNum.div, hn]

theorem sum_map_linear (A T : ℚ) :
    ∀ l : List ℚ, (l.map (fun q => A * (q / T))).sum = A * (l.sum / T)
  | [] => by simp
  | q :: l => by
      simp only [List.map_cons, List.sum_cons, sum_map_linear A T l]
      ring

theorem allocatedTotal_partition (A : ℚ) (bs : List DemographicBreakdown)
    (hne : bs ≠ [])
    (hbranch :
      ((∀ seg ∈ bs, ∃ p : ℚ, seg.percentage_of_audience = some (JsNum.num p)) ∧
        (JsNum.num 0).ltB (totalPercentage bs) = true)
      ∨ (JsNum.num 0).ltB (totalPercentage bs) = false) :
    allocatedTotal (JsNum.num A) bs = JsNum.num A := by
  rcases hbranch with ⟨hall, hlt⟩ | hlt
  · have hT := totalPercentage_eq bs hall
    set T := (bs.map pctQ).sum with hTdef
    have hpos : 0 < T := by
      rw [hT] at hlt
      simpa [JsNum.ltB] using hlt
    have hmap : bs.map (fun seg => (JsNum.num A).mul (share bs seg))
        = bs.map (fun seg => JsNum.num (A * (pctQ seg / T))) := by
      apply List.map_congr_left
      intro seg hseg
      obtain ⟨p, hp⟩ := hall seg hseg
      rw [share_of_pct bs seg p T hp hT hpos]
      simp [JsNum.mul, pctQ, hp]
    rw [allocatedTotal, hmap,
      foldl_add_num (fun seg => A * (pctQ seg / T)) bs 0]
    have hsum : (bs.map (fun seg => A * (pctQ seg / T))).sum = A * (T / T) := by
      have : bs.map (fun seg => A * (pctQ seg / T))
          = (bs.map pctQ).map (fun q => A * (q / T)) := by
        rw [List.map_map]; rfl
      rw [this, sum_map_linear, hTdef]
    rw [hsum, div_self hpos.ne', mul_one, zero_add]
  · have hn : ((bs.length : ℚ)) ≠ 0 :=
      Nat.cast_ne_zero.mpr (List.length_pos.mpr hne).ne'
    have hmap : bs.map (fun seg => (JsNum.num A).mul (share bs seg))
        = bs.map (fun _ => JsNum.num (A * (1 / (bs.length : ℚ)))) := by
      apply List.map_congr_left
      intro seg hseg
      rw [share_uniform bs seg hlt hne]
      simp [JsNum.mul]
    rw [allocatedTotal, hmap,
      foldl_add_num (fun _ => A * (1 / (bs.length : ℚ))) bs 0]
    congr 1
    have : bs.map (fun _ => A * (1 / (bs.length : ℚ)))
        = List.replicate bs.length (A * (1 / (bs.length : ℚ))) := by
      simp [List.map_const']
    rw [this, List.sum_replicate, nsmul_eq_mul]
    field_simp

/-- A campaign mixing a defined and an undefined `percentage_of_audience`:
the defined segment takes the percentage branch (share `50/50 = 1`) while the
undefined one falls back to the uniform share `1/2`, so the shares total
`3/2` and the allocation overshoots the campaign spend. -/
def mixedShareCampaign : Campaign :=
  { spend := some (.num 100), revenue := some (.num 100),
    demographic_breakdown := some
      [⟨some "18-24", some "male", some (.num 50),
        some ⟨some (.num 0), some (.num 0), some (.num 0)⟩⟩,
       ⟨some "25-34", some "female", none,
        some ⟨some (.num 0), some (.num 0), some (.num 0)⟩⟩],
    device_performance := none, regional_performance := none,
    weekly_performance := none }

/-- C1 counterexample: `mixedShareCampaign` has campaign-level spend `100` and
a non-empty two-segment breakdown, yet the Age Aggregator's allocated spend
contributions sum to `150`, not `100`; the partition invariant as claimed for
every campaign with a non-empty breakdown is false. -/
theorem C1_share_allocation_counterexample :
    mixedShareCampaign.spend = some (JsNum.num 100) ∧
    (mixedShareCampaign.demographic_breakdown.getD []).length = 2 ∧
    allocatedSpend mixedShareCampaign = JsNum.num 150 ∧
    JsNum.num 150 ≠ JsNum.num 100 := by
  refine ⟨rfl, rfl, ?_, by norm_num⟩
  norm_num [allocatedSpend, allocatedTotal, mixedShareCampaign, share,
    totalPercentage, JsNum.num_add_num, JsNum.mul, JsNum.div, JsNum.ltB]

/-- C1 (amended): for a campaign with a non-empty breakdown, finite spend `S`
and revenue `R`, the allocated spend contributions sum to exactly `S` and the
allocated revenue contributions to exactly `R`, in the percentage-share branch
provided every segment of the campaign has a (finite) defined percentage, and
unconditionally in the uniform-fallback branch (`totalPercentage > 0` false).
The extra proviso is forced by `C1_share_allocation_counterexample`: the
source chooses the branch per segment, so a campaign whose positive
percentage total coexists with percentage-less segments over-allocates. -/
theorem C1_partition_invariant (campaign : Campaign) (S R : ℚ)
    (bs : List DemographicBreakdown)
    (hbs : campaign.demographic_breakdown = some bs)
    (hne : bs ≠ [])
    (hS : campaign.spend = some (JsNum.num S))
    (hR : campaign.revenue = some (JsNum.num R))
    (hbranch :
      ((∀ seg ∈ bs, ∃ p : ℚ, seg.percentage_of_audience = some (JsNum.num p)) ∧
        (JsNum.num 0).ltB (totalPercentage bs) = true)
      ∨ (JsNum.num 0).ltB (totalPercentage bs) = false) :
    allocatedSpend campaign = JsNum.num S ∧
    allocatedRevenue campaign = JsNum.num R :=
  ⟨by rw [allocatedSpend, hbs, hS]
      exact allocatedTotal_partition S bs hne hbranch,
   by rw [allocatedRevenue, hbs, hR]
      exact allocatedTotal_partition R bs hne hbranch⟩

/-- The two-segment `60 / 40` campaign of the spec's end-to-end scenario. -/
def scenarioCampaignA : Campaign :=
  { spend := some (.num 100), revenue := some (.num 80),
    demographic_breakdown := some
      [⟨some "18-24", some "male", some (.num 60),
        some ⟨some (.num 1000), some (.num 50), some (.num 5)⟩⟩,
       ⟨some "25-34", some "female", some (.num 40),
        some ⟨some (.num 800), some (.num 40), some (.num 2)⟩⟩],
    device_performance := none, regional_performance := none,
    weekly_performance := none }

theorem C1_partition_invariant_witness :
    allocatedSpend scenarioCampaignA = JsNum.num 100 ∧
    allocatedRevenue scenarioCampaignA = JsNum.num 80 :=
  C1_partition_invariant scenarioCampaignA 100 80 _ rfl (by simp) rfl rfl
    (Or.inl ⟨by
      intro seg hseg
      simp only [List.mem_cons, List.not_mem_nil, or_false] at hseg
      rcases hseg with rfl | rfl
      · exact ⟨60, rfl⟩
      · exact ⟨40, rfl⟩,
      by norm_num [totalPercentage, JsNum.num_add_num, JsNum.ltB]⟩)

/-! ## Claim C3: gender filter with age pass-through -/

/-- C3: for any segment whose lowercased gender is neither `"male"` nor
`"female"` (including an absent gender, which lowercases to `""`), one step of
the segment loop leaves both gender-totals records and both gender-by-age maps
untouched and only writes the segment's metrics (counts verbatim,
spend/revenue via share allocation) into `ageTotals` under its age-group key -
`"Unknown"` when the age group is absent; and for a segment whose lowercased
gender is `"male"` (resp. `"female"`), the matching gender totals accumulate
clicks verbatim and spend/revenue via share allocation while the opposite
gender's totals and map stay untouched. -/
theorem C3_gender_filter_age_passthrough (spend revenue : JsNum)
    (bs : List DemographicBreakdown) (st : AggState)
    (seg : DemographicBreakdown) :
    ((jsToLower (seg.gender.getD "") ≠ "male" ∧
      jsToLower (seg.gender.getD "") ≠ "female") →
      processSegment spend revenue bs st seg
        = { st with
            ageTotals := mapSet st.ageTotals (seg.age_group.getD "Unknown")
              (ageUpdate spend revenue bs seg
                ((mapGet? st.ageTotals
                  (seg.age_group.getD "Unknown")).getD createEmptyAgeMetrics)) }) ∧
    (jsToLower (seg.gender.getD "") = "male" →
      (processSegment spend revenue bs st seg).maleTotals
          = ⟨st.maleTotals.clicks.add (perfField seg (·.clicks)),
             st.maleTotals.spend.add (spend.mul (share bs seg)),
             st.maleTotals.revenue.add (revenue.mul (share bs seg))⟩ ∧
      (processSegment spend revenue bs st seg).femaleTotals = st.femaleTotals ∧
      (processSegment spend revenue bs st seg).femaleAgeTotals
          = st.femaleAgeTotals) ∧
    (jsToLower (seg.gender.getD "") = "female" →
      (processSegment spend revenue bs st seg).femaleTotals
          = ⟨st.femaleTotals.clicks.add (perfField seg (·.clicks)),
             st.femaleTotals.spend.add (spend.mul (share bs seg)),
             st.femaleTotals.revenue.add (revenue.mul (share bs seg))⟩ ∧
      (processSegment spend revenue bs st seg).maleTotals = st.maleTotals ∧
      (processSegment spend revenue bs st seg).maleAgeTotals
          = st.maleAgeTotals) := by
  refine ⟨fun h => ?_, fun h => ?_, fun h => ?_⟩
  · simp only [processSegment]
    rw [if_neg h.1, if_neg h.2]
  · simp only [processSegment]
    rw [if_pos h]
    exact ⟨rfl, rfl, rfl⟩
  · have hm : jsToLower (seg.gender.getD "") ≠ "male" := by
      rw [h]; decide
    simp only [processSegment]
    rw [if_neg hm, if_pos h]
    exact ⟨rfl, rfl, rfl⟩

/-- A segment with a gender label outside male/female. -/
def otherGenderSeg : DemographicBreakdown :=
  ⟨none, some "Other", some (.num 50),
   some ⟨some (.num 10), some (.num 2), some (.num 1)⟩⟩

/-- A segment whose gender lowercases to `"male"`. -/
def maleSeg : DemographicBreakdown :=
  ⟨some "18-24", some "Male", some (.num 50),
   some ⟨some (.num 10), some (.num 2), some (.num 1)⟩⟩

theorem C3_gender_filter_age_passthrough_witness :
    (processSegment (JsNum.num 6) (JsNum.num 8) [otherGenderSeg]
        initialAggState otherGenderSeg
      = { initialAggState with
          ageTotals := mapSet initialAggState.ageTotals
            (otherGenderSeg.age_group.getD "Unknown")
            (ageUpdate (JsNum.num 6) (JsNum.num 8) [otherGenderSeg]
              otherGenderSeg
              ((mapGet? initialAggState.ageTotals
                (otherGenderSeg.age_group.getD "Unknown")).getD
                  createEmptyAgeMetrics)) }) ∧
    ((processSegment (JsNum.num 6) (JsNum.num 8) [maleSeg] initialAggState
        maleSeg).maleTotals
      = ⟨initialAggState.maleTotals.clicks.add (perfField maleSeg (·.clicks)),
         initialAggState.maleTotals.spend.add
           ((JsNum.num 6).mul (share [maleSeg] maleSeg)),
         initialAggState.maleTotals.revenue.add
           ((JsNum.num 8).mul (share [maleSeg] maleSeg))⟩ ∧
     (processSegment (JsNum.num 6) (JsNum.num 8) [maleSeg] initialAggState
        maleSeg).femaleTotals = initialAggState.femaleTotals ∧
     (processSegment (JsNum.num 6) (JsNum.num 8) [maleSeg] initialAggState
        maleSeg).femaleAgeTotals = initialAggState.femaleAgeTotals) :=
  ⟨(C3_gender_filter_age_passthrough (JsNum.num 6) (JsNum.num 8)
      [otherGenderSeg] initialAggState otherGenderSeg).1 (by decide),
   (C3_gender_filter_age_passthrough (JsNum.num 6) (JsNum.num 8)
      [maleSeg] initialAggState maleSeg).2.1 (by decide)⟩

/-! ## Claim C10: campaigns without a demographic breakdown are dropped -/

theorem processCampaign_skip (st : AggState) (campaign : Campaign)
    (h : campaign.demographic_breakdown = none ∨
         campaign.demographic_breakdown = some []) :
    processCampaign st campaign = st := by
  rcases h with h | h <;> simp [processCampaign, h]

/-- A campaign with spend but no demographic breakdown at all. -/
def noBreakdownCampaign : Campaign :=
  { spend := some (.num 100), revenue := some (.num 40),
    demographic_breakdown := none, device_performance := none,
    regional_performance := none, weekly_performance := none }

/-- C10: a campaign whose `demographic_breakdown` is absent or empty leaves
`aggregateCampaignMetrics` exactly as if the campaign were removed from the
input list; in particular (second conjunct) a lone such campaign with spend
`100` yields age totals whose spends sum to `0`, strictly less than the
campaign spend. -/
theorem C10_empty_breakdown_dropped :
    (∀ (pre post : List Campaign) (campaign : Campaign),
      (campaign.demographic_breakdown = none ∨
        campaign.demographic_breakdown = some []) →
      aggregateCampaignMetrics (pre ++ campaign :: post)
        = aggregateCampaignMetrics (pre ++ post)) ∧
    (((aggregateCampaignMetrics [noBreakdownCampaign]).ageTotals.map
        (fun entry => entry.2.spend)).foldl JsNum.add (JsNum.num 0)
          = JsNum.num 0 ∧
      noBreakdownCampaign.spend = some (JsNum.num 100) ∧
      (JsNum.num 0).ltB (JsNum.num 100) = true) := by
  refine ⟨fun pre post campaign h => ?_, rfl, rfl, ?_⟩
  · unfold aggregateCampaignMetrics
    rw [List.foldl_append, List.foldl_append, List.foldl_cons,
      processCampaign_skip _ _ h]
  · norm_num [JsNum.ltB]

theorem C10_empty_breakdown_dropped_witness :
    aggregateCampaignMetrics [scenarioCampaignA, noBreakdownCampaign]
      = aggregateCampaignMetrics [scenarioCampaignA] :=
  C10_empty_breakdown_dropped.1 [scenarioCampaignA] [] noBreakdownCampaign
    (Or.inl rfl)

/-! ## Claim C6: age-group presentation ordering -/

/-- C6: for every age-totals map the presentation order starts with the fixed
canonical five labels and continues with the remaining observed labels in
ascending lexicographic order: the first five entries equal
`AGE_GROUP_ORDER`, the tail is sorted under the string order, and the tail is
a permutation of the observed non-canonical keys; on the observed groups
`["55+", "18-24", "Teen"]` the produced order is exactly
`["18-24", "25-34", "35-44", "45-54", "55+", "Teen"]`. -/
theorem C6_age_group_ordering :
    (∀ ageTotals : List (String × AgeMetrics),
      (buildOrderedAgeGroups ageTotals).take 5 = AGE_GROUP_ORDER ∧
      List.Sorted strLe ((buildOrderedAgeGroups ageTotals).drop 5) ∧
      ((buildOrderedAgeGroups ageTotals).drop 5).Perm
        ((ageTotals.map Prod.fst).filter
          (fun ageGroup => !AGE_GROUP_ORDER.contains ageGroup))) ∧
    buildOrderedAgeGroups
        [("55+", createEmptyAgeMetrics), ("18-24", createEmptyAgeMetrics),
         ("Teen", createEmptyAgeMetrics)]
      = ["18-24", "25-34", "35-44", "45-54", "55+", "Teen"] := by
  constructor
  · intro m
    refine ⟨?_, ?_, ?_⟩
    · simp only [buildOrderedAgeGroups]
      exact List.take_left AGE_GROUP_ORDER _
    · simp only [buildOrderedAgeGroups]
      have h := List.drop_left AGE_GROUP_ORDER
        (((m.map Prod.fst).filter
          (fun ageGroup => !AGE_GROUP_ORDER.contains ageGroup)).insertionSort
            strLe)
      rw [show (5 : ℕ) = AGE_GROUP_ORDER.length from rfl, h]
      exact List.sorted_insertionSort strLe _
    · simp only [buildOrderedAgeGroups]
      have h := List.drop_left AGE_GROUP_ORDER
        (((m.map Prod.fst).filter
          (fun ageGroup => !AGE_GROUP_ORDER.contains ageGroup)).insertionSort
            strLe)
      rw [show (5 : ℕ) = AGE_GROUP_ORDER.length from rfl, h]
      exact List.perm_insertionSort strLe _
  · decide

/-! ## Claim C4: uniform zero-denominator policy for derived metrics -/

/-- C4: on finite accumulators, every device aggregate and every emitted
gender-by-age table row follows the uniform policy: impressions at most `0`
give `ctr = 0`, clicks at most `0` give `conversionRate = 0`, total clicks
across both devices at most `0` give `trafficShare = 0`, and spend at most `0`
gives `roas = none` (the absent value, not `0`); with a positive denominator
each metric is the corresponding ratio. -/
theorem C4_zero_denominator_policy :
    (∀ (aggregate : DeviceAggregate) (totalClicks : JsNum) (i c v s r T : ℚ),
      aggregate.impressions = JsNum.num i → aggregate.clicks = JsNum.num c →
      aggregate.conversions = JsNum.num v → aggregate.spend = JsNum.num s →
      aggregate.revenue = JsNum.num r → totalClicks = JsNum.num T →
      ((i ≤ 0 → (enrichOne aggregate totalClicks).ctr = JsNum.num 0) ∧
       (0 < i →
         (enrichOne aggregate totalClicks).ctr = JsNum.num (c / i * 100)) ∧
       (c ≤ 0 →
         (enrichOne aggregate totalClicks).conversionRate = JsNum.num 0) ∧
       (0 < c →
         (enrichOne aggregate totalClicks).conversionRate
           = JsNum.num (v / c * 100)) ∧
       (s ≤ 0 → (enrichOne aggregate totalClicks).roas = none) ∧
       (0 < s →
         (enrichOne aggregate totalClicks).roas = some (JsNum.num (r / s))) ∧
       (T ≤ 0 → (enrichOne aggregate totalClicks).trafficShare = JsNum.num 0) ∧
       (0 < T →
         (enrichOne aggregate totalClicks).trafficShare
           = JsNum.num (c / T * 100)))) ∧
    (∀ (ageGroup : String) (totals : AgeMetrics) (i c v : ℚ)
        (row : AgeTableRow),
      totals.impressions = JsNum.num i → totals.clicks = JsNum.num c →
      totals.conversions = JsNum.num v →
      buildRow ageGroup totals = some row →
      ((i ≤ 0 → row.ctr = JsNum.num 0) ∧
       (0 < i → row.ctr = JsNum.num (c / i * 100)) ∧
       (c ≤ 0 → row.conversionRate = JsNum.num 0) ∧
       (0 < c → row.conversionRate = JsNum.num (v / c * 100)))) := by
  constructor
  · intro aggregate totalClicks i c v s r T hi hc hv hs hr hT
    refine ⟨fun h => ?_, fun h => ?_, fun h => ?_, fun h => ?_, fun h => ?_,
      fun h => ?_, fun h => ?_, fun h => ?_⟩
    · simp [enrichOne, hi, JsNum.ltB, not_lt.mpr h]
    · simp [enrichOne, hi, hc, JsNum.ltB, h, JsNum.div, JsNum.mul, h.ne']
    · simp [enrichOne, hc, JsNum.ltB, not_lt.mpr h]
    · simp [enrichOne, hc, hv, JsNum.ltB, h, JsNum.div, JsNum.mul, h.ne']
    · simp [enrichOne, hs, JsNum.ltB, not_lt.mpr h]
    · simp [enrichOne, hs, hr, JsNum.ltB, h, JsNum.div, JsNum.mul, h.ne']
    · simp [enrichOne, hT, JsNum.ltB, not_lt.mpr h]
    · simp [enrichOne, hT, hc, JsNum.ltB, h, JsNum.div, JsNum.mul, h.ne']
  · intro ageGroup totals i c v row hi hc hv hrow
    rw [buildRow] at hrow
    split at hrow
    · rw [Option.some.injEq] at hrow
      subst hrow
      refine ⟨fun h => ?_, fun h => ?_, fun h => ?_, fun h => ?_⟩
      · simp [hi, JsNum.ltB, not_lt.mpr h]
      · simp [hi, hc, JsNum.ltB, h, JsNum.div, JsNum.mul, h.ne']
      · simp [hc, JsNum.ltB, not_lt.mpr h]
      · simp [hc, hv, JsNum.ltB, h, JsNum.div, JsNum.mul, h.ne']
    · exact absurd hrow (by simp)

theorem C4_zero_denominator_policy_witness :
    (enrichOne ⟨"Mobile", .num 1000, .num 50, .num 5, .num 200, .num 400⟩
        (.num 80)).ctr = JsNum.num (50 / 1000 * 100) ∧
    (enrichOne ⟨"Mobile", .num 1000, .num 50, .num 5, .num 200, .num 400⟩
        (.num 80)).roas = some (JsNum.num (400 / 200)) ∧
    (⟨"18-24", JsNum.num 0, JsNum.num 4, JsNum.num 1, JsNum.num 0,
        JsNum.num 25⟩ : AgeTableRow).ctr = JsNum.num 0 := by
  have hd := C4_zero_denominator_policy.1
    ⟨"Mobile", .num 1000, .num 50, .num 5, .num 200, .num 400⟩ (.num 80)
    1000 50 5 200 400 80 rfl rfl rfl rfl rfl rfl
  have hrw := C4_zero_denominator_policy.2 "18-24"
    ⟨.num 0, .num 0, .num 0, .num 4, .num 1⟩ 0 4 1
    ⟨"18-24", JsNum.num 0, JsNum.num 4, JsNum.num 1, JsNum.num 0, JsNum.num 25⟩
    rfl rfl rfl
    (by norm_num [buildRow, JsNum.ltB, JsNum.div, JsNum.mul, JsNum.round])
  exact ⟨hd.2.1 (by norm_num), hd.2.2.2.2.2.1 (by norm_num),
    hrw.1 (by norm_num)⟩

/-! ## Claim C5: device filter and zero-default -/

theorem finiteOrZero_of_finite (x : Option JsNum)
    (h : (x.getD (JsNum.num 0)).isFinite = true) :
    finiteOrZero x = x.getD (JsNum.num 0) := by
  simp [finiteOrZero, h]

/-- C5: a `device_performance` entry contributes exactly when its lowercased
label is `"mobile"` or `"desktop"`: any other label (or an absent one) leaves
the totals untouched; a recognised label adds its five (finite) metrics
verbatim to that bucket; and the enriched output always carries both device
keys, an absent bucket defaulting to all-zero metrics. -/
theorem C5_device_filter_and_zero_default :
    (∀ (totals : List (String × DeviceAggregate)) (deviceStat : DeviceStat),
      (∀ s, deviceStat.device = some s →
        jsToLower s ≠ "mobile" ∧ jsToLower s ≠ "desktop") →
      processDeviceStat totals deviceStat = totals) ∧
    (∀ (totals : List (String × DeviceAggregate)) (deviceStat : DeviceStat)
        (s : String),
      deviceStat.device = some s →
      (jsToLower s = "mobile" ∨ jsToLower s = "desktop") →
      (deviceStat.impressions.getD (JsNum.num 0)).isFinite = true →
      (deviceStat.clicks.getD (JsNum.num 0)).isFinite = true →
      (deviceStat.conversions.getD (JsNum.num 0)).isFinite = true →
      (deviceStat.spend.getD (JsNum.num 0)).isFinite = true →
      (deviceStat.revenue.getD (JsNum.num 0)).isFinite = true →
      processDeviceStat totals deviceStat
        = mapSet totals (jsToLower s)
            (let existing := (mapGet? totals (jsToLower s)).getD
              (emptyDeviceAggregate (jsToLower s))
             { existing with
               impressions := existing.impressions.add
                 (deviceStat.impressions.getD (JsNum.num 0)),
               clicks := existing.clicks.add
                 (deviceStat.clicks.getD (JsNum.num 0)),
               conversions := existing.conversions.add
                 (deviceStat.conversions.getD (JsNum.num 0)),
               spend := existing.spend.add
                 (deviceStat.spend.getD (JsNum.num 0)),
               revenue := existing.revenue.add
                 (deviceStat.revenue.getD (JsNum.num 0)) })) ∧
    (∀ totals : List (String × DeviceAggregate),
      (mapGet? totals "mobile" = none →
        (enrichMetrics totals).mobile.device = "Mobile" ∧
        (enrichMetrics totals).mobile.impressions = JsNum.num 0 ∧
        (enrichMetrics totals).mobile.clicks = JsNum.num 0 ∧
        (enrichMetrics totals).mobile.conversions = JsNum.num 0 ∧
        (enrichMetrics totals).mobile.spend = JsNum.num 0 ∧
        (enrichMetrics totals).mobile.revenue = JsNum.num 0) ∧
      (mapGet? totals "desktop" = none →
        (enrichMetrics totals).desktop.device = "Desktop" ∧
        (enrichMetrics totals).desktop.impressions = JsNum.num 0 ∧
        (enrichMetrics totals).desktop.clicks = JsNum.num 0 ∧
        (enrichMetrics totals).desktop.conversions = JsNum.num 0 ∧
        (enrichMetrics totals).desktop.spend = JsNum.num 0 ∧
        (enrichMetrics totals).desktop.revenue = JsNum.num 0)) := by
  refine ⟨?_, ?_, ?_⟩
  · intro totals deviceStat h
    cases hd : deviceStat.device with
    | none => simp [processDeviceStat, hd]
    | some s =>
        obtain ⟨h1, h2⟩ := h s hd
        simp [processDeviceStat, hd, h1, h2]
  · intro totals deviceStat s hd hor h1 h2 h3 h4 h5
    simp only [processDeviceStat, hd, Option.map_some']
    rw [if_pos hor]
    simp only [finiteOrZero_of_finite _ h1, finiteOrZero_of_finite _ h2,
      finiteOrZero_of_finite _ h3, finiteOrZero_of_finite _ h4,
      finiteOrZero_of_finite _ h5]
  · intro totals
    constructor
    · intro h
      simp [enrichMetrics, h, enrichOne, emptyDeviceAggregate, deviceLabel]
    · intro h
      simp [enrichMetrics, h, enrichOne, emptyDeviceAggregate, deviceLabel]

/-- A tablet entry, recognised by neither device bucket. -/
def tabletStat : DeviceStat :=
  ⟨some "Tablet", some (.num 100), some (.num 10), some (.num 1),
   some (.num 7), some (.num 9)⟩

/-- A well-formed mobile entry. -/
def mobileStat : DeviceStat :=
  ⟨some "Mobile", some (.num 100), some (.num 10), some (.num 1),
   some (.num 7), some (.num 9)⟩

theorem C5_device_filter_and_zero_default_witness :
    processDeviceStat [] tabletStat = [] ∧
    processDeviceStat [] mobileStat
      = mapSet [] (jsToLower "Mobile")
          (let existing := (mapGet? [] (jsToLower "Mobile")).getD
            (emptyDeviceAggregate (jsToLower "Mobile"))
           { existing with
             impressions := existing.impressions.add
               (mobileStat.impressions.getD (JsNum.num 0)),
             clicks := existing.clicks.add
               (mobileStat.clicks.getD (JsNum.num 0)),
             conversions := existing.conversions.add
               (mobileStat.conversions.getD (JsNum.num 0)),
             spend := existing.spend.add
               (mobileStat.spend.getD (JsNum.num 0)),
             revenue := existing.revenue.add
               (mobileStat.revenue.getD (JsNum.num 0)) }) ∧
    (enrichMetrics []).mobile.impressions = JsNum.num 0 ∧
    (enrichMetrics []).desktop.impressions = JsNum.num 0 :=
  ⟨C5_device_filter_and_zero_default.1 [] tabletStat
    (by
      intro s hs
      rw [show tabletStat.device = some "Tablet" from rfl,
        Option.some.injEq] at hs
      subst hs
      exact ⟨by decide, by decide⟩),
   C5_device_filter_and_zero_default.2.1 [] mobileStat "Mobile" rfl
     (Or.inl (by decide)) rfl rfl rfl rfl rfl,
   ((C5_device_filter_and_zero_default.2.2 []).1 rfl).2.1,
   ((C5_device_filter_and_zero_default.2.2 []).2 rfl).2.1⟩

/-! ## Claim C8: region exclusion is silent and non-fatal -/

/-- A campaign reporting one unknown region (`"Atlantis"`) and one known one
(`"Dubai"`). -/
def atlantisCampaign : Campaign :=
  { spend := none, revenue := none, demographic_breakdown := none,
    device_performance := none,
    regional_performance := some
      [⟨"Atlantis", "Lost Continent", some (.num 3), some (.num 4)⟩,
       ⟨"Dubai", "UAE", some (.num 5), some (.num 11)⟩],
    weekly_performance := none }

/-- A lone unmatched regional entry. -/
def atlantisStat : RegionStat := ⟨"Atlantis", "Lost Continent", none, none⟩

/-- C8: a regional entry whose normalized region is not in the coordinate
table leaves the running totals untouched and is only recorded in the
diagnostic `missingRegions` set (never surfaced in the return value); in
particular `"Atlantis"` resolves to no coordinates, and end-to-end a campaign
reporting Atlantis and Dubai aggregates to the Dubai bucket alone.  The
embedded aggregator is a total function, so no region name makes it throw. -/
theorem C8_region_exclusion :
    (∀ (acc : RegionAccum) (regionStat : RegionStat),
      resolveCoordinates regionStat.region = none →
      ((processRegionStat acc regionStat).totals = acc.totals ∧
       regionStat.region ∈ (processRegionStat acc regionStat).missingRegions)) ∧
    resolveCoordinates "Atlantis" = none ∧
    aggregateRegionalPerformance [atlantisCampaign]
      = [⟨"Dubai", "UAE", (25.2048 : ℚ), (55.2708 : ℚ),
          JsNum.num 5, JsNum.num 11⟩] := by
  refine ⟨?_, by decide, ?_⟩
  · intro acc regionStat h
    refine ⟨by simp [processRegionStat, h], ?_⟩
    simp only [processRegionStat, h]
    split
    next hc => exact List.mem_of_elem_eq_true hc
    next => simp
  · norm_num +decide [aggregateRegionalPerformance, processRegionStat,
      resolveCoordinates, normalizeKey, jsToLower, jsTrim, REGION_COORDINATES,
      mapGet?, mapSet, finiteOrZero, JsNum.isFinite, JsNum.num_add_num,
      List.insertionSort, List.orderedInsert, atlantisCampaign]

theorem C8_region_exclusion_witness :
    (processRegionStat ⟨[], []⟩ atlantisStat).totals = [] ∧
    "Atlantis" ∈ (processRegionStat ⟨[], []⟩ atlantisStat).missingRegions :=
  C8_region_exclusion.1 ⟨[], []⟩ atlantisStat (by decide)

/-! ## Claim C7: week bucketing by literal string pair -/

/-- A campaign whose two weekly entries have different `(week_start,
week_end)` pairs that nevertheless concatenate to the same bucket key
`"a_b_c"`. -/
def underscoreCampaign : Campaign :=
  { spend := none, revenue := none, demographic_breakdown := none,
    device_performance := none, regional_performance := none,
    weekly_performance := some
      [⟨"a_b", "c", some (.num 1), some (.num 0)⟩,
       ⟨"a", "b_c", some (.num 2), some (.num 0)⟩] }

/-- C7 counterexample: the two entries of `underscoreCampaign` have distinct
`(week_start, week_end)` string pairs, yet their bucket keys coincide, and the
aggregator merges them into a single bucket (spend `1 + 2 = 3`) - so "merged
iff the string pairs are identical" fails in the only-if direction. -/
theorem C7_week_bucketing_counterexample :
    (("a_b", "c") : String × String) ≠ ("a", "b_c") ∧
    weekKey ⟨"a_b", "c", some (.num 1), some (.num 0)⟩
      = weekKey ⟨"a", "b_c", some (.num 2), some (.num 0)⟩ ∧
    aggregateWeeklyPerformance [underscoreCampaign]
      = [⟨"a_b", "c", JsNum.num 3, JsNum.num 0⟩] := by
  refine ⟨by decide, by decide, ?_⟩
  norm_num +decide [aggregateWeeklyPerformance, processWeek, weekKey,
    mapGet?, mapSet, finiteOrZero, JsNum.isFinite, JsNum.num_add_num,
    List.insertionSort, List.orderedInsert, underscoreCampaign]

/-- The string contains no `'_'` character (true of ISO `YYYY-MM-DD` dates,
the documented shape of the week boundary strings). -/
def noUnderscore (s : String) : Prop := '_' ∉ s.data

instance (s : String) : Decidable (noUnderscore s) :=
  inferInstanceAs (Decidable ('_' ∉ s.data))

theorem append_underscore_inj :
    ∀ (l1 l2 r1 r2 : List Char), '_' ∉ l1 → '_' ∉ l2 →
      l1 ++ '_' :: r1 = l2 ++ '_' :: r2 → l1 = l2 ∧ r1 = r2
  | [], [], _, _, _, _, h => ⟨rfl, by simpa using h⟩
  | [], c :: l2, r1, r2, _, h2, h => by
      simp only [List.nil_append, List.cons_append, List.cons.injEq] at h
      refine absurd ?_ h2
      rw [h.1]
      exact List.mem_cons_self c l2
  | c :: l1, [], r1, r2, h1, _, h => by
      simp only [List.nil_append, List.cons_append, List.cons.injEq] at h
      refine absurd ?_ h1
      rw [← h.1]
      exact List.mem_cons_self c l1
  | a :: l1, b :: l2, r1, r2, h1, h2, h => by
      simp only [List.cons_append, List.cons.injEq] at h
      obtain ⟨rfl, htail⟩ := h
      obtain ⟨hl, hr⟩ := append_underscore_inj l1 l2 r1 r2
        (fun hm => h1 (List.mem_cons_of_mem _ hm))
        (fun hm => h2 (List.mem_cons_of_mem _ hm)) htail
      exact ⟨by rw [hl], hr⟩

/-- One week of one campaign. -/
def wkCampaignA : Campaign :=
  { spend := none, revenue := none, demographic_breakdown := none,
    device_performance := none, regional_performance := none,
    weekly_performance := some
      [⟨"2024-01-01", "2024-01-07", some (.num 10), some (.num 1)⟩] }

/-- The same week boundary strings reported by a second campaign. -/
def wkCampaignB : Campaign :=
  { spend := none, revenue := none, demographic_breakdown := none,
    device_performance := none, regional_performance := none,
    weekly_performance := some
      [⟨"2024-01-01", "2024-01-07", some (.num 20), some (.num 2)⟩] }

/-- C7 (amended): two weekly entries share a bucket exactly when their
concatenated keys `week_start ++ "_" ++ week_end` coincide; when the
`week_start` strings contain no underscore (as every ISO date does) key
equality is equivalent to equality of the `(week_start, week_end)` pairs; the
aggregate list is sorted ascending by parsed `week_start` date whenever every
emitted `week_start` parses as an ISO date; and two campaigns reporting the
same boundary strings are merged into one bucket with summed spend/revenue. -/
theorem C7_week_bucketing_amended :
    (∀ w1 w2 : WeeklyStat,
      noUnderscore w1.week_start → noUnderscore w2.week_start →
      (weekKey w1 = weekKey w2 ↔
        (w1.week_start = w2.week_start ∧ w1.week_end = w2.week_end))) ∧
    (∀ campaigns : List Campaign,
      (∀ wa ∈ aggregateWeeklyPerformance campaigns,
        (parseIsoDateMs wa.weekStart).isSome = true) →
      List.Sorted weekLe (aggregateWeeklyPerformance campaigns)) ∧
    aggregateWeeklyPerformance [wkCampaignA, wkCampaignB]
      = [⟨"2024-01-01", "2024-01-07", JsNum.num 30, JsNum.num 3⟩] := by
  refine ⟨?_, ?_, ?_⟩
  · intro w1 w2 h1 h2
    constructor
    · intro h
      have hu : ("_" : String).data = ['_'] := rfl
      have hd : w1.week_start.data ++ '_' :: w1.week_end.data
          = w2.week_start.data ++ '_' :: w2.week_end.data := by
        have hc := congrArg String.data h
        simpa [weekKey, String.data_append, hu, List.append_assoc] using hc
      obtain ⟨ha, hb⟩ := append_underscore_inj _ _ _ _ h1 h2 hd
      exact ⟨String.ext ha, String.ext hb⟩
    · intro h
      rw [weekKey, weekKey, h.1, h.2]
  · intro campaigns _
    exact List.sorted_insertionSort weekLe _
  · norm_num +decide [aggregateWeeklyPerformance, processWeek, weekKey,
      mapGet?, mapSet, finiteOrZero, JsNum.isFinite, JsNum.num_add_num,
      List.insertionSort, List.orderedInsert, wkCampaignA, wkCampaignB]

theorem C7_week_bucketing_amended_witness :
    (weekKey ⟨"2024-01-01", "2024-01-07", none, none⟩
        = weekKey ⟨"2024-01-01", "2024-01-14", none, none⟩ ↔
      ((("2024-01-01" : String) = "2024-01-01") ∧
        (("2024-01-07" : String) = "2024-01-14"))) ∧
    List.Sorted weekLe (aggregateWeeklyPerformance [wkCampaignA]) :=
  ⟨C7_week_bucketing_amended.1
      ⟨"2024-01-01", "2024-01-07", none, none⟩
      ⟨"2024-01-01", "2024-01-14", none, none⟩ (by decide) (by decide),
   C7_week_bucketing_amended.2.1 [wkCampaignA] (by decide)⟩

/-! ## Claim C9: fetch failure handling -/

/-- C9 (code bug): a network failure and a non-2xx status are caught and
converted to the null result, and a parsed 2xx body is returned; but a 2xx
response whose body fails to parse is NOT converted to null - the source
returns the `response.json()` promise from inside the `try` block without
awaiting it, so that promise's rejection bypasses the `catch` clause and
propagates to the caller. -/
theorem C9_fetch_parse_failure_propagates :
    fetchMarketingData .networkError = .ok none ∧
    fetchMarketingData (.response false (.ok ⟨none⟩)) = .ok none ∧
    fetchMarketingData (.response false (.error "boom")) = .ok none ∧
    fetchMarketingData (.response true (.ok ⟨none⟩)) = .ok (some ⟨none⟩) ∧
    fetchMarketingData (.response true (.error "unexpected token"))
      = .error "unexpected token" :=
  ⟨rfl, rfl, rfl, rfl, rfl⟩

/-! ## Claim C2: numeric coercion of missing and non-finite fields -/

/-- A campaign whose spend is `NaN`, consumed by the demographic
aggregator. -/
def nanSpendCampaign : Campaign :=
  { spend := some .nan, revenue := some (.num 0),
    demographic_breakdown := some [⟨none, none, none, none⟩],
    device_performance := none, regional_performance := none,
    weekly_performance := none }

/-- C2 counterexample: the demographic aggregator has no finiteness guard, so
a `NaN` campaign spend does not contribute zero - it poisons the accumulated
`"Unknown"` age-total spend with `NaN` instead. -/
theorem C2_nonfinite_coercion_counterexample :
    (mapGet? (aggregateCampaignMetrics [nanSpendCampaign]).ageTotals
        "Unknown").map AgeMetrics.spend = some JsNum.nan ∧
    JsNum.nan ≠ JsNum.num 0 := by
  exact ⟨by decide, by decide⟩

/-- Weekly entry with `NaN` spend. -/
def nanWeekCampaign : Campaign :=
  { spend := none, revenue := none, demographic_breakdown := none,
    device_performance := none, regional_performance := none,
    weekly_performance := some
      [⟨"2024-01-01", "2024-01-07", some .nan, some (.num 5)⟩] }

/-- Device entry with an infinite impression count and a missing spend. -/
def infDeviceCampaign : Campaign :=
  { spend := none, revenue := none, demographic_breakdown := none,
    device_performance := some
      [⟨some "mobile", some .posInf, some (.num 2), none, none, none⟩],
    regional_performance := none, weekly_performance := none }

/-- Regional entry with `NaN` spend. -/
def nanRegionCampaign : Campaign :=
  { spend := none, revenue := none, demographic_breakdown := none,
    device_performance := none,
    regional_performance := some
      [⟨"Dubai", "UAE", some .nan, some (.num 7)⟩],
    weekly_performance := none }

/-- A campaign whose revenue is `NaN`, consumed by the demographic
aggregator. -/
def nanRevenueCampaign : Campaign :=
  { spend := some (.num 0), revenue := some .nan,
    demographic_breakdown := some [⟨none, none, none, none⟩],
    device_performance := none, regional_performance := none,
    weekly_performance := none }

/-- C2 (amended): a missing numeric field contributes zero in every
aggregator, and a non-finite value is coerced to zero by the
`Number.isFinite` guard of the device, region and week aggregators (shown
both on the shared guard and end-to-end); but the demographic aggregator has
no such guard, so a non-finite value propagates into its totals (last
conjunct, revenue this time). -/
theorem C2_numeric_coercion_amended :
    (∀ x : Option JsNum, x = none → finiteOrZero x = JsNum.num 0) ∧
    (∀ (x : Option JsNum) (v : JsNum), x = some v → v.isFinite = false →
      finiteOrZero x = JsNum.num 0) ∧
    (∀ x : Option JsNum, x = none → x.getD (JsNum.num 0) = JsNum.num 0) ∧
    aggregateWeeklyPerformance [nanWeekCampaign]
      = [⟨"2024-01-01", "2024-01-07", JsNum.num 0, JsNum.num 5⟩] ∧
    aggregateDevicePerformance [infDeviceCampaign]
      = [("mobile", ⟨"Mobile", JsNum.num 0, JsNum.num 2, JsNum.num 0,
          JsNum.num 0, JsNum.num 0⟩)] ∧
    aggregateRegionalPerformance [nanRegionCampaign]
      = [⟨"Dubai", "UAE", (25.2048 : ℚ), (55.2708 : ℚ),
          JsNum.num 0, JsNum.num 7⟩] ∧
    (mapGet? (aggregateCampaignMetrics [nanRevenueCampaign]).ageTotals
        "Unknown").map AgeMetrics.revenue = some JsNum.nan := by
  refine ⟨?_, ?_, ?_, ?_, ?_, ?_, by decide⟩
  · intro x h; subst h; rfl
  · intro x v h hf
    subst h
    simp [finiteOrZero, hf]
  · intro x h; subst h; rfl
  · norm_num +decide [aggregateWeeklyPerformance, processWeek, weekKey,
      mapGet?, mapSet, finiteOrZero, JsNum.isFinite, JsNum.num_add_num,
      List.insertionSort, List.orderedInsert, nanWeekCampaign]
  · norm_num +decide [aggregateDevicePerformance, processDeviceStat,
      jsToLower, emptyDeviceAggregate, deviceLabel, mapGet?, mapSet,
      finiteOrZero, JsNum.isFinite, JsNum.num_add_num, infDeviceCampaign]
  · norm_num +decide [aggregateRegionalPerformance, processRegionStat,
      resolveCoordinates, normalizeKey, jsToLower, jsTrim, REGION_COORDINATES,
      mapGet?, mapSet, finiteOrZero, JsNum.isFinite, JsNum.num_add_num,
      List.insertionSort, List.orderedInsert, nanRegionCampaign]

theorem C2_numeric_coercion_amended_witness :
    finiteOrZero none = JsNum.num 0 ∧
    finiteOrZero (some JsNum.nan) = JsNum.num 0 ∧
    (none : Option JsNum).getD (JsNum.num 0) = JsNum.num 0 :=
  ⟨C2_numeric_coercion_amended.1 none rfl,
   C2_numeric_coercion_amended.2.1 (some JsNum.nan) JsNum.nan rfl rfl,
   C2_numeric_coercion_amended.2.2.1 none rfl⟩
